import Mathlib

/-!
Shallow embedding of the email-backend service (src/app.py): the company
data model produced by the spreadsheet upload, the per-company send/skip
decision logic, the resumable send task persisted to a state file, and the
step function `process_next_company` together with the task-starting
endpoint `send_emails`.  Machine-level concerns (HTTP, SMTP transport,
pandas internals) are abstracted: a spreadsheet cell is a `Cell`, the
mailer is an oracle from (company index, attempt number) to success, and
the persisted JSON file is an `Option EmailTask`.
-/

namespace EmailBackend

/-- A raw spreadsheet cell as pandas hands it to the service: a string, a
NaN (empty cell), or some other non-string scalar (modelled as an `Int`,
e.g. a numeric cell). -/
inductive Cell where
  | str (s : String)
  | nan
  | int (n : Int)
deriving DecidableEq, Repr

/-- Python truthiness of a cell value (`if not names_list`): an empty
string is falsy, NaN is truthy (it is a nonzero float), a number is falsy
exactly when zero. -/
def cellTruthy : Cell → Bool
  | .str s => !(s == "")
  | .nan => true
  | .int n => !(n == 0)

/-- `str(x)` on a cell (used for patents and for f-string interpolation). -/
def pyStr : Cell → String
  | .str s => s
  | .nan => "nan"
  | .int n => toString n

/-- `pd.isna` on a scalar cell. -/
def isNaCell : Cell → Bool
  | .nan => true
  | _ => false

/-- `isinstance(x, str)` projection. -/
def asStr : Cell → Option String
  | .str s => some s
  | _ => none

/-- One grouped company record, as built by the upload endpoint
(`groupby('Company')` with list aggregation for patents/emails/first
names and `'first'` for the response). -/
structure Company where
  name : String
  patents : List Cell
  emails : List Cell
  firstNames : List Cell
  response : Cell
deriving DecidableEq, Repr

/-- `x.lower()` on an ASCII string (character-wise lowering, written over
the character list so it computes by structural recursion). -/
def pyLower (s : String) : String :=
  String.mk (s.data.map Char.toLower)

/-- `isinstance(email, str) and '@' in email` (line 187 of app.py): a
single-character membership test, i.e. some character equals `'@'`. -/
def isValidEmailCell : Cell → Bool
  | .str s => s.data.any (fun ch => ch == '@')
  | _ => false

/-- `valid_emails = [email for email in emails if isinstance(email, str) and '@' in email]`. -/
def validEmails (c : Company) : List Cell :=
  c.emails.filter isValidEmailCell

/-- `valid_first_names = first_names[:len(valid_emails)]`. -/
def matchedNames (c : Company) : List Cell :=
  c.firstNames.take (validEmails c).length

/-- `', '.join` over cells: succeeds only when every cell is a string,
otherwise Python raises TypeError. -/
def allStr : List Cell → Option (List String)
  | [] => some []
  | c :: cs =>
    match asStr c, allStr cs with
    | some s, some ss => some (s :: ss)
    | _, _ => none

/-- The greeting computation (lines 197-200):
`', '.join(valid_first_names[:-1]) + ' & ' + valid_first_names[-1]` when
there are at least two names (raising TypeError when any involved entry is
not a string), otherwise the single entry, or `''` for an empty list. -/
def greet : List Cell → Except Unit Cell
  | [] => .ok (.str "")
  | [c] => .ok c
  | c1 :: c2 :: rest =>
    match allStr (c1 :: c2 :: rest).dropLast, ((c1 :: c2 :: rest).getLast?).bind asStr with
    | some init, some last => .ok (.str (String.intercalate ", " init ++ " & " ++ last))
    | _, _ => .error ()

/-- `isinstance(response, str) and response.lower() == 'yes'`. -/
def isYes : Cell → Bool
  | .str s => pyLower s == "yes"
  | _ => false

/-- `isinstance(response, str) and response.lower() == 'no'`. -/
def isNo : Cell → Bool
  | .str s => pyLower s == "no"
  | _ => false

/-- `response == ''` (only a string cell can equal the empty string). -/
def isEmptyStr : Cell → Bool
  | .str s => s == ""
  | _ => false

/-- Patent summary (lines 207-209): drop NaN entries, stringify, keep the
first two, join with `", "`, defaulting to the fixed fallback text. -/
def patentsStr (c : Company) : String :=
  let ps := ((c.patents.filter (fun p => !isNaCell p)).map pyStr).take 2
  if ps.isEmpty then "No patent information available"
  else String.intercalate ", " ps

/-! ### Dates

`datetime` values are compared only against the midnight constant
`datetime(2024, 11, 27) + timedelta(days=15)`, so a day-granularity clock
is an exact model: a datetime on day `d` is `>=` midnight of day `D` iff
`d >= D`.  Days are counted in the proleptic Gregorian calendar. -/

def isLeapYear (y : Nat) : Bool :=
  (y % 4 == 0 && y % 100 != 0) || y % 400 == 0

def daysInMonth (y m : Nat) : Nat :=
  if m == 2 then (if isLeapYear y then 29 else 28)
  else if m == 4 || m == 6 || m == 9 || m == 11 then 30
  else 31

def daysBeforeMonth (y m : Nat) : Nat :=
  ((List.range (m - 1)).map (fun i => daysInMonth y (i + 1))).sum

/-- Day number of a civil date (days since 0001-01-01). -/
def toDays (y m d : Nat) : Nat :=
  365 * (y - 1) + (y - 1) / 4 - (y - 1) / 100 + (y - 1) / 400 +
    daysBeforeMonth y m + (d - 1)

/-- `follow_up_date = datetime(2024, 11, 27) + timedelta(days=15)` (line 216). -/
def followUpDate : Nat :=
  toDays 2024 11 27 + 15

/-- Which template variant a send uses. -/
inductive Variant where
  | initial
  | followUp
deriving DecidableEq, Repr

/-- Why a company is skipped (distinguished by the code's branches). -/
inductive SkipReason where
  | noValidEmails
  | noValidNames
  | responseYes
  | responseDate
deriving DecidableEq, Repr

/-- The per-company decision of `process_next_company` (lines 186-302),
before any mailer interaction: skip with a reason, raise (propagating to
the endpoint's exception handler), or send a template variant with a
subject line. -/
inductive CompanyAction where
  | skip (r : SkipReason)
  | raiseErr
  | send (v : Variant) (subject : String)
deriving DecidableEq, Repr

/-- The decision chain of lines 186-302: valid-emails check, greeting
computation (which can raise), empty-greeting check, response-yes check,
then the response/date state machine choosing the template variant. -/
def companyAction (c : Company) (today : Nat) : CompanyAction :=
  if (validEmails c).isEmpty then .skip .noValidEmails
  else
    match greet (matchedNames c) with
    | .error _ => .raiseErr
    | .ok g =>
      if !cellTruthy g then .skip .noValidNames
      else if isYes c.response then .skip .responseYes
      else if isNaCell c.response || isEmptyStr c.response then
        .send .initial ("Patent Monetization Interest for " ++ patentsStr c ++ " etc.")
      else if isNo c.response && decide (followUpDate ≤ today) then
        .send .followUp "Follow-up: Patent Acquisition Interest"
      else .skip .responseDate

/-! ### Task state -/

/-- The persisted `email_task` dictionary.  Index fields are `Option Int`
because the default (no file) state stores `None` there. -/
structure EmailTask where
  in_progress : Bool
  email : Option String
  password : Option String
  start_index : Option Int
  end_index : Option Int
  current_index : Option Int
  sent_emails : Int
  total_emails_to_send : Int
  error : Option String
deriving DecidableEq, Repr

/-- The default task returned by `load_email_task` when no state file
exists (lines 34-44). -/
def defaultTask : EmailTask :=
  { in_progress := false, email := none, password := none,
    start_index := none, end_index := none, current_index := none,
    sent_emails := 0, total_emails_to_send := 0, error := none }

/-- `load_email_task()`: the persisted task if the file exists, else the
default. -/
def loadTask (file : Option EmailTask) : EmailTask :=
  file.getD defaultTask

/-- Result of one endpoint call, projecting the JSON response. -/
inductive Outcome where
  | errInProgress
  | errCreds
  | errNoData
  | errRange
  | noTask
  | completed (sent total : Int)
  | skipped (r : SkipReason)
  | sentOk (v : Variant) (subject : String) (recipients : Int)
  | mailerFailed
  | exceptionFailed
deriving DecidableEq, Repr

/-- Did this call process one company (advance past it), whether by
sending or by skipping? -/
def Outcome.isProcessed : Outcome → Bool
  | .skipped _ => true
  | .sentOk _ _ _ => true
  | _ => false

/-- Is this the terminal-completion response? -/
def Outcome.isCompleted : Outcome → Bool
  | .completed _ _ => true
  | _ => false

/-- Is this one of the validation rejections issued before any processing? -/
def Outcome.isRejection : Outcome → Bool
  | .errInProgress => true
  | .errCreds => true
  | .errNoData => true
  | .errRange => true
  | _ => false

/-- Python list indexing `l[i]`: negative indices count from the end;
out-of-range raises (modelled as `none`). -/
def pyIndex {α : Type} (l : List α) (i : Int) : Option α :=
  let j := if i < 0 then i + l.length else i
  if 0 ≤ j then l.get? j.toNat else none

/-- Processing of the current company (lines 178-348) once it has been
looked up: run the decision chain, then for a send run the two-attempt
retry loop (the oracle consulted at attempt numbers 0 and 1 of this
company index, each attempt on a fresh connection in the source), update
counters and advance, or record the terminal failure. -/
def stepCompany (today : Nat) (mailer : Int → Nat → Bool) (t : EmailTask)
    (ci : Int) (c : Company) : Option EmailTask × Outcome :=
  match companyAction c today with
  | .skip r =>
    (some { t with current_index := some (ci + 1) }, .skipped r)
  | .raiseErr =>
    (some { t with error := some "TypeError", in_progress := false },
      .exceptionFailed)
  | .send v subject =>
    if mailer ci 0 || mailer ci 1 then
      (some { t with
          sent_emails := t.sent_emails + (validEmails c).length,
          current_index := some (ci + 1) },
        .sentOk v subject (validEmails c).length)
    else
      (some { t with error := some "MailerError", in_progress := false },
        .mailerFailed)

/-- The body of `process_next_company` after the task has been loaded and
found in progress (lines 167-348): completion check against `end_index`,
company lookup (an out-of-range index raises into the handler of lines
349-354, which records the error, clears `in_progress` and saves), then
the per-company processing. -/
def stepIndexed (companies : List Company) (today : Nat)
    (mailer : Int → Nat → Bool) (t : EmailTask) (ci ei : Int) :
    Option EmailTask × Outcome :=
  if ei < ci then
    (some { t with in_progress := false },
      .completed t.sent_emails t.total_emails_to_send)
  else
    match pyIndex companies ci with
    | none =>
      (some { t with error := some "IndexError", in_progress := false },
        .exceptionFailed)
    | some c => stepCompany today mailer t ci c

/-- Dispatch on the two index fields: both must be present (a `None`
comparison raises TypeError into the handler of lines 349-354). -/
def stepLoaded (companies : List Company) (today : Nat)
    (mailer : Int → Nat → Bool) (t : EmailTask) : Option EmailTask × Outcome :=
  match t.current_index, t.end_index with
  | some ci, some ei => stepIndexed companies today mailer t ci ei
  | _, _ =>
    (some { t with error := some "TypeError", in_progress := false },
      .exceptionFailed)

/-- `process_next_company()` (lines 160-354): reload the task from the
state file, reject when no task is in progress, otherwise run one step.
Returns the new state file content and the call's outcome. -/
def processNextCompany (companies : List Company) (today : Nat)
    (mailer : Int → Nat → Bool) (file : Option EmailTask) :
    Option EmailTask × Outcome :=
  let t := loadTask file
  if t.in_progress then stepLoaded companies today mailer t
  else (file, .noTask)

/-- One endpoint call as seen by the whole process: the global
`email_task` variable (`mem`) is overwritten by `load_email_task()` on
entry (line 163), so the step's behaviour depends only on the file; the
new global value is whatever was last saved (equivalently, what a reload
of the new file yields). -/
def stepFull (companies : List Company) (today : Nat)
    (mailer : Int → Nat → Bool) (mem : EmailTask) (file : Option EmailTask) :
    EmailTask × Option EmailTask × Outcome :=
  let _ := mem
  let r := processNextCompany companies today mailer file
  (loadTask r.1, r.1, r.2)

/-- `n` successive calls to the step endpoint in one uninterrupted
process: the global variable is threaded from call to call. -/
def runSteps (companies : List Company) (today : Nat)
    (mailer : Int → Nat → Bool) :
    Nat → EmailTask → Option EmailTask → Option EmailTask × List Outcome
  | 0, _, file => (file, [])
  | n + 1, mem, file =>
    let r := stepFull companies today mailer mem file
    let rest := runSteps companies today mailer n r.1 r.2.1
    (rest.1, r.2.2 :: rest.2)

/-- `n` successive calls with a fresh process restart before each one: the
restarted process re-initialises its global from the persisted file
(line 55 `email_task = load_email_task()`), discarding the previous
in-memory value. -/
def runStepsRestart (companies : List Company) (today : Nat)
    (mailer : Int → Nat → Bool) :
    Nat → EmailTask → Option EmailTask → Option EmailTask × List Outcome
  | 0, _, file => (file, [])
  | n + 1, _, file =>
    let r := stepFull companies today mailer (loadTask file) file
    let rest := runStepsRestart companies today mailer n r.1 r.2.1
    (rest.1, r.2.2 :: rest.2)

/-! ### Starting a task -/

/-- Python truthiness of the credential fields (`if not email or not
password`): absent or empty is falsy. -/
def credOk : Option String → Bool
  | none => false
  | some s => !(s == "")

/-- One company's contribution to the dry-run total of lines 120-134:
zero when the response is (case-insensitively) `'yes'`, when no email
entry is valid, or when the first-names prefix is empty; otherwise the
number of valid emails.  The date condition is not consulted. -/
def dryCount (c : Company) : Int :=
  if isYes c.response then 0
  else if (validEmails c).isEmpty then 0
  else if (matchedNames c).isEmpty then 0
  else ((validEmails c).length : Int)

/-- `total_emails_to_send` as computed by the loop over
`range(start_index, end_index + 1)` (valid ranges only, as guaranteed by
the preceding validation). -/
def computeTotal (companies : List Company) (s e : Int) : Int :=
  (((companies.drop s.toNat).take (e + 1 - s).toNat).map dryCount).sum

/-- The fresh task persisted by `send_emails` (lines 137-147). -/
def initTask (email password : String) (s e total : Int) : EmailTask :=
  { in_progress := true, email := some email, password := some password,
    start_index := some s, end_index := some e, current_index := some s,
    sent_emails := 0, total_emails_to_send := total, error := none }

/-- `send_emails` (lines 97-154): reload the task, reject a concurrent
task, validate credentials, data presence and the index range, compute the
dry-run total, persist the fresh task, then immediately process the first
company. -/
def sendEmails (companies : List Company) (today : Nat)
    (mailer : Int → Nat → Bool) (email password : Option String)
    (s e : Int) (file : Option EmailTask) : Option EmailTask × Outcome :=
  let t := loadTask file
  if t.in_progress then (file, .errInProgress)
  else if !credOk email || !credOk password then (file, .errCreds)
  else if companies.isEmpty then (file, .errNoData)
  else if s < 0 || (companies.length : Int) ≤ e || e < s then (file, .errRange)
  else
    let total := computeTotal companies s e
    let fresh := initTask (email.getD "") (password.getD "") s e total
    processNextCompany companies today mailer (some fresh)

/-! ### Helper lemmas -/

theorem allStr_map_str (l : List String) : allStr (l.map Cell.str) = some l := by
  induction l with
  | nil => rfl
  | cons a t ih => simp [allStr, asStr, ih]

theorem allStr_none_of_mem {l : List Cell} {x : Cell}
    (hx : x ∈ l) (h : asStr x = none) : allStr l = none := by
  induction l with
  | nil => cases hx
  | cons a t ih =>
    cases hx with
    | head => rw [allStr, h]
    | tail _ hmem =>
      rw [allStr, ih hmem]
      cases asStr a <;> rfl

theorem dropLast_map_cell (f : String → Cell) (l : List String) :
    (l.map f).dropLast = l.dropLast.map f := by
  induction l with
  | nil => rfl
  | cons a t ih =>
    cases t with
    | nil => rfl
    | cons b r =>
      show f a :: ((b :: r).map f).dropLast = f a :: ((b :: r).dropLast).map f
      rw [ih]

theorem getLast?_map_cell (f : String → Cell) (l : List String) :
    (l.map f).getLast? = l.getLast?.map f := by
  induction l with
  | nil => rfl
  | cons a t ih =>
    cases t with
    | nil => rfl
    | cons b r =>
      show ((f b :: r.map f)).getLast? = ((b :: r).getLast?).map f
      exact ih

theorem greet_strings (names : List String) (h2 : 2 ≤ names.length) :
    greet (names.map Cell.str) =
      .ok (.str (String.intercalate ", " names.dropLast ++ " & " ++
        names.getLast?.getD "")) := by
  match names with
  | [] => simp at h2
  | [a] => simp at h2
  | a :: b :: t =>
    have e1 : (Cell.str a :: Cell.str b :: t.map Cell.str).dropLast
        = (a :: b :: t).dropLast.map Cell.str := dropLast_map_cell Cell.str (a :: b :: t)
    have e2 : (Cell.str a :: Cell.str b :: t.map Cell.str).getLast?
        = ((a :: b :: t).getLast?).map Cell.str := getLast?_map_cell Cell.str (a :: b :: t)
    show greet (Cell.str a :: Cell.str b :: t.map Cell.str) = _
    rw [greet, e1, allStr_map_str, e2]
    cases hl : (a :: b :: t).getLast? with
    | none => simp at hl
    | some z => simp [asStr]

theorem greet_raises {cs : List Cell} (h2 : 2 ≤ cs.length) {x : Cell}
    (hx : x ∈ cs) (hs : asStr x = none) : greet cs = .error () := by
  match cs with
  | c1 :: c2 :: rest =>
    have hne : (c1 :: c2 :: rest) ≠ [] := by simp
    obtain ⟨z, hz⟩ : ∃ z, (c1 :: c2 :: rest).getLast? = some z := by
      cases hl : (c1 :: c2 :: rest).getLast? with
      | none => exact absurd (List.getLast?_eq_none_iff.mp hl) hne
      | some z => exact ⟨z, rfl⟩
    have hdg : (c1 :: c2 :: rest).dropLast ++ [z] = c1 :: c2 :: rest :=
      List.dropLast_append_getLast? z hz
    have hsplit : x ∈ (c1 :: c2 :: rest).dropLast ∨ x = z := by
      rw [← hdg] at hx
      rcases List.mem_append.mp hx with h | h
      · exact Or.inl h
      · exact Or.inr (by simpa using h)
    rcases hsplit with hmem | hxz
    · rw [greet, allStr_none_of_mem hmem hs]
    · have h1 : ((c1 :: c2 :: rest).getLast?).bind asStr = none := by
        rw [hz]
        show asStr z = none
        rw [← hxz]
        exact hs
      rw [greet, h1]
      cases allStr (c1 :: c2 :: rest).dropLast <;> rfl

theorem stepLoaded_eq {t : EmailTask} {ci ei : Int}
    (companies : List Company) (today : Nat) (mailer : Int → Nat → Bool)
    (hci : t.current_index = some ci) (hei : t.end_index = some ei) :
    stepLoaded companies today mailer t = stepIndexed companies today mailer t ci ei := by
  unfold stepLoaded
  rw [hci, hei]

theorem stepIndexed_some {companies : List Company} {ci ei : Int} {c : Company}
    (today : Nat) (mailer : Int → Nat → Bool) (t : EmailTask)
    (hrange : ¬ ei < ci) (hidx : pyIndex companies ci = some c) :
    stepIndexed companies today mailer t ci ei = stepCompany today mailer t ci c := by
  unfold stepIndexed
  rw [if_neg hrange, hidx]

theorem stepCompany_skip {today : Nat} {c : Company} {r : SkipReason}
    (mailer : Int → Nat → Bool) (t : EmailTask) (ci : Int)
    (hact : companyAction c today = .skip r) :
    stepCompany today mailer t ci c =
      (some { t with current_index := some (ci + 1) }, .skipped r) := by
  unfold stepCompany
  rw [hact]

theorem stepCompany_raise {today : Nat} {c : Company}
    (mailer : Int → Nat → Bool) (t : EmailTask) (ci : Int)
    (hact : companyAction c today = .raiseErr) :
    stepCompany today mailer t ci c =
      (some { t with error := some "TypeError", in_progress := false },
        .exceptionFailed) := by
  unfold stepCompany
  rw [hact]

theorem stepCompany_send_ok {today : Nat} {c : Company} {v : Variant}
    {subject : String} (mailer : Int → Nat → Bool) (t : EmailTask) (ci : Int)
    (hact : companyAction c today = .send v subject)
    (hm : (mailer ci 0 || mailer ci 1) = true) :
    stepCompany today mailer t ci c =
      (some { t with
          sent_emails := t.sent_emails + (validEmails c).length,
          current_index := some (ci + 1) },
        .sentOk v subject (validEmails c).length) := by
  unfold stepCompany
  rw [hact, hm]
  rfl

theorem stepCompany_send_fail {today : Nat} {c : Company} {v : Variant}
    {subject : String} (mailer : Int → Nat → Bool) (t : EmailTask) (ci : Int)
    (hact : companyAction c today = .send v subject)
    (h0 : mailer ci 0 = false) (h1 : mailer ci 1 = false) :
    stepCompany today mailer t ci c =
      (some { t with error := some "MailerError", in_progress := false },
        .mailerFailed) := by
  unfold stepCompany
  rw [hact, h0, h1]
  rfl

theorem processNextCompany_eq {file : Option EmailTask} {t : EmailTask}
    (companies : List Company) (today : Nat) (mailer : Int → Nat → Bool)
    (hfile : loadTask file = t) (hp : t.in_progress = true) :
    processNextCompany companies today mailer file = stepLoaded companies today mailer t := by
  simp only [processNextCompany, hfile, hp, if_true]

/-! ### Claim theorems -/

/-- C4: for a company whose response is (case-insensitively) `"no"` and
which passes the Recipient Resolver (some valid email, a greeting that
computes and is non-empty), the Message Selector skips with the
response/date outcome when today is before 2024-12-12, selects the
follow-up variant when today is on or after it, and the threshold
2024-11-27 + 15 days equals 2024-12-12. -/
theorem no_response_follow_up_rule (c : Company) (today : Nat) (s : String)
    (g : Cell) (hr : c.response = Cell.str s) (hlow : pyLower s = "no")
    (hve : (validEmails c).isEmpty = false)
    (hg : greet (matchedNames c) = .ok g) (ht : cellTruthy g = true) :
    (today < followUpDate → companyAction c today = .skip .responseDate) ∧
    (followUpDate ≤ today →
      companyAction c today = .send .followUp "Follow-up: Patent Acquisition Interest") ∧
    followUpDate = toDays 2024 12 12 := by
  have hsne : (s == "") = false := by
    cases he : s == "" with
    | true =>
      have he2 : s = "" := eq_of_beq he
      subst he2
      exact absurd hlow (by decide)
    | false => rfl
  have hyes : isYes c.response = false := by
    rw [hr]
    show (pyLower s == "yes") = false
    rw [hlow]
    rfl
  have hno : isNo c.response = true := by
    rw [hr]
    show (pyLower s == "no") = true
    rw [hlow]
    rfl
  have hna : isNaCell c.response = false := by rw [hr]; rfl
  have hemp : isEmptyStr c.response = false := by
    rw [hr]
    show (s == "") = false
    exact hsne
  refine ⟨?_, ?_, by decide⟩
  · intro hlt
    have hdec : decide (followUpDate ≤ today) = false := by
      simp [Nat.not_le.mpr hlt]
    simp [companyAction, hve, hg, ht, hyes, hno, hna, hemp, hdec]
  · intro hle
    have hdec : decide (followUpDate ≤ today) = true := by simp [hle]
    simp [companyAction, hve, hg, ht, hyes, hno, hna, hemp, hdec]

/-- Witness for `no_response_follow_up_rule` at a concrete company with
response `"No"` on 2024-12-12. -/
theorem no_response_follow_up_rule_witness :
    companyAction ⟨"W", [], [.str "a@b"], [.str "Bob"], .str "No"⟩ (toDays 2024 12 12)
      = .send .followUp "Follow-up: Patent Acquisition Interest" :=
  (no_response_follow_up_rule ⟨"W", [], [.str "a@b"], [.str "Bob"], .str "No"⟩
    (toDays 2024 12 12) "No" (.str "Bob") rfl (by decide) (by decide) rfl
    (by decide)).2.1 (by decide)

/-- C5: a company none of whose email entries is a string containing `@`
is skipped with the no-valid-emails outcome, whatever its first names,
patents and response hold (the decision fires before the greeting is
computed); and the surviving valid-email list is always an
order-preserving sublist of the original entries. -/
theorem no_valid_emails_skip (c : Company) (today : Nat)
    (h : ∀ x ∈ c.emails, isValidEmailCell x = false) :
    companyAction c today = .skip .noValidEmails ∧
    (∀ c2 : Company, (validEmails c2).Sublist c2.emails) := by
  have hnil : validEmails c = [] := by
    rw [validEmails]
    rw [List.filter_eq_nil_iff]
    intro a ha
    rw [h a ha]
    exact Bool.false_ne_true
  constructor
  · simp [companyAction, hnil]
  · exact fun c2 => List.filter_sublist c2.emails

/-- Witness for `no_valid_emails_skip`: no `@` in any entry, while the
first names would raise in the greeting and the response would otherwise
send. -/
theorem no_valid_emails_skip_witness :
    companyAction ⟨"E", [], [.nan, .str "nope"], [.nan, .nan], .str ""⟩ 0
      = .skip .noValidEmails :=
  (no_valid_emails_skip ⟨"E", [], [.nan, .str "nope"], [.nan, .nan], .str ""⟩ 0
    (by decide)).1

/-- C7: for a non-empty list of (string) names, the greeting is the single
name verbatim when there is exactly one, and all names but the last joined
with `", "` followed by `" & "` and the last name when there are two or
more (e.g. `["Alice","Bob","Carol"]` gives `"Alice, Bob & Carol"`); and a
company whose greeting computes to the empty string is skipped with the
no-valid-names outcome. -/
theorem greeting_rule (names : List String) (hne : names ≠ []) :
    (∀ a, names = [a] → greet (names.map Cell.str) = .ok (.str a)) ∧
    (2 ≤ names.length →
      greet (names.map Cell.str) =
        .ok (.str (String.intercalate ", " names.dropLast ++ " & " ++
          names.getLast?.getD ""))) ∧
    greet [Cell.str "Alice", Cell.str "Bob", Cell.str "Carol"]
      = .ok (.str "Alice, Bob & Carol") ∧
    (∀ (c : Company) (today : Nat), (validEmails c).isEmpty = false →
      greet (matchedNames c) = .ok (Cell.str "") →
      companyAction c today = .skip .noValidNames) := by
  refine ⟨?_, greet_strings names, rfl, ?_⟩
  · intro a ha
    subst ha
    rfl
  · intro c today hve hg
    simp [companyAction, hve, hg, cellTruthy]

/-- Witness for `greeting_rule` at `["Alice","Bob"]`. -/
theorem greeting_rule_witness :
    greet [Cell.str "Alice", Cell.str "Bob"] = .ok (.str "Alice & Bob") := by
  have h := (greeting_rule ["Alice", "Bob"] (by decide)).2.1 (by decide)
  simpa using h

/-- C10: when a step observes `current_index > end_index` it marks the
task terminal-complete, and the only persisted field that changes is
`in_progress`: counters, bounds, `current_index`, the recorded error and
the stored credentials (sender address and password) are all carried over
unchanged. -/
theorem completion_frame (companies : List Company) (today : Nat)
    (mailer : Int → Nat → Bool) (file : Option EmailTask) (t : EmailTask)
    (ci ei : Int) (hfile : loadTask file = t) (hp : t.in_progress = true)
    (hci : t.current_index = some ci) (hei : t.end_index = some ei)
    (hdone : ei < ci) :
    ∃ t2, processNextCompany companies today mailer file =
        (some t2, .completed t.sent_emails t.total_emails_to_send) ∧
      t2.in_progress = false ∧
      t2.email = t.email ∧ t2.password = t.password ∧
      t2.start_index = t.start_index ∧ t2.end_index = t.end_index ∧
      t2.current_index = t.current_index ∧ t2.sent_emails = t.sent_emails ∧
      t2.total_emails_to_send = t.total_emails_to_send ∧ t2.error = t.error := by
  refine ⟨{ t with in_progress := false }, ?_, rfl, rfl, rfl, rfl, rfl, ?_, rfl, rfl, rfl⟩
  · rw [processNextCompany_eq companies today mailer hfile hp,
      stepLoaded_eq companies today mailer hci hei]
    unfold stepIndexed
    rw [if_pos hdone]
  · rw [hci]

/-- Witness for `completion_frame` on a concrete finished task. -/
theorem completion_frame_witness :
    ∃ t2, processNextCompany [] 0 (fun _ _ => true)
        (some { initTask "u" "p" 0 0 5 with current_index := some 1 }) =
        (some t2, .completed 0 5) ∧
      t2.in_progress = false ∧
      t2.email = some "u" ∧ t2.password = some "p" ∧
      t2.start_index = some 0 ∧ t2.end_index = some 0 ∧
      t2.current_index = some 1 ∧ t2.sent_emails = 0 ∧
      t2.total_emails_to_send = 5 ∧ t2.error = none :=
  completion_frame [] 0 (fun _ _ => true)
    (some { initTask "u" "p" 0 0 5 with current_index := some 1 })
    { initTask "u" "p" 0 0 5 with current_index := some 1 }
    1 0 rfl rfl rfl rfl (by decide)

/-- C3: when a company's message is selected for sending and both mailer
attempts fail, the task becomes terminal (`in_progress = false`, an error
recorded), the failing company's recipients are not added to the sent
count, `current_index` is not advanced, a subsequent step call refuses to
resume, and the call consults the mailer oracle only at attempts 0 and 1
of the current company (two attempts, each on its own fresh connection in
the source). -/
theorem mailer_failure_terminal (companies : List Company) (today : Nat)
    (mailer : Int → Nat → Bool) (file : Option EmailTask) (t : EmailTask)
    (ci ei : Int) (c : Company) (v : Variant) (subject : String)
    (hfile : loadTask file = t) (hp : t.in_progress = true)
    (hci : t.current_index = some ci) (hei : t.end_index = some ei)
    (hrange : ¬ ei < ci) (hidx : pyIndex companies ci = some c)
    (hact : companyAction c today = .send v subject)
    (h0 : mailer ci 0 = false) (h1 : mailer ci 1 = false) :
    ∃ t2, processNextCompany companies today mailer file = (some t2, .mailerFailed) ∧
      t2.in_progress = false ∧ t2.error.isSome = true ∧
      t2.sent_emails = t.sent_emails ∧ t2.current_index = some ci ∧
      processNextCompany companies today mailer (some t2) = (some t2, .noTask) ∧
      (∀ m2 : Int → Nat → Bool, m2 ci 0 = false → m2 ci 1 = false →
        processNextCompany companies today m2 file =
          processNextCompany companies today mailer file) := by
  have hstep : ∀ m2 : Int → Nat → Bool, m2 ci 0 = false → m2 ci 1 = false →
      processNextCompany companies today m2 file =
        (some { t with error := some "MailerError", in_progress := false },
          .mailerFailed) := by
    intro m2 g0 g1
    rw [processNextCompany_eq companies today m2 hfile hp,
      stepLoaded_eq companies today m2 hci hei,
      stepIndexed_some today m2 t hrange hidx,
      stepCompany_send_fail m2 t ci hact g0 g1]
  refine ⟨{ t with error := some "MailerError", in_progress := false },
    hstep mailer h0 h1, rfl, rfl, rfl, ?_, ?_, ?_⟩
  · rw [hci]
  · unfold processNextCompany
    simp [loadTask]
  · intro m2 g0 g1
    rw [hstep m2 g0 g1, hstep mailer h0 h1]

/-- Witness for `mailer_failure_terminal`: a one-company task whose mailer
always fails. -/
theorem mailer_failure_terminal_witness :
    ∃ t2, processNextCompany [⟨"X", [], [.str "a@b"], [.str "Al"], .str ""⟩]
        0 (fun _ _ => false) (some (initTask "u" "p" 0 0 1)) = (some t2, .mailerFailed) ∧
      t2.in_progress = false ∧ t2.error.isSome = true ∧
      t2.sent_emails = 0 ∧ t2.current_index = some 0 ∧
      processNextCompany [⟨"X", [], [.str "a@b"], [.str "Al"], .str ""⟩]
        0 (fun _ _ => false) (some t2) = (some t2, .noTask) ∧
      (∀ m2 : Int → Nat → Bool, m2 0 0 = false → m2 0 1 = false →
        processNextCompany [⟨"X", [], [.str "a@b"], [.str "Al"], .str ""⟩]
          0 m2 (some (initTask "u" "p" 0 0 1)) =
        processNextCompany [⟨"X", [], [.str "a@b"], [.str "Al"], .str ""⟩]
          0 (fun _ _ => false) (some (initTask "u" "p" 0 0 1))) :=
  mailer_failure_terminal _ 0 (fun _ _ => false) _ (initTask "u" "p" 0 0 1)
    0 0 ⟨"X", [], [.str "a@b"], [.str "Al"], .str ""⟩ .initial
    "Patent Monetization Interest for No patent information available etc."
    rfl rfl rfl rfl (by decide) rfl (by decide) rfl rfl

/-- C8: on a started task, the step outcome is terminal completion exactly
when `current_index` exceeds `end_index`; a processed company (sent or
skipped) advances `current_index` by exactly 1; a non-processing call
(completion, terminal mailer failure, exception) leaves it unchanged, so
it never decreases; and a freshly created task starts at
`current_index = start_index`. -/
theorem current_index_progression (companies : List Company) (today : Nat)
    (mailer : Int → Nat → Bool) (file : Option EmailTask) (t : EmailTask)
    (ci ei : Int) (em pw : String) (s e total : Int)
    (hfile : loadTask file = t) (hp : t.in_progress = true)
    (hci : t.current_index = some ci) (hei : t.end_index = some ei) :
    ∃ t2, (processNextCompany companies today mailer file).1 = some t2 ∧
      ((processNextCompany companies today mailer file).2.isCompleted = true ↔ ei < ci) ∧
      ((processNextCompany companies today mailer file).2.isProcessed = true →
        t2.current_index = some (ci + 1)) ∧
      ((processNextCompany companies today mailer file).2.isProcessed = false →
        t2.current_index = some ci) ∧
      (∀ j, t2.current_index = some j → ci ≤ j) ∧
      ((processNextCompany companies today mailer file).2.isCompleted = true →
        t2.in_progress = false) ∧
      (initTask em pw s e total).current_index = some s ∧
      (initTask em pw s e total).start_index = some s := by
  rw [processNextCompany_eq companies today mailer hfile hp,
    stepLoaded_eq companies today mailer hci hei]
  by_cases hdone : ei < ci
  · rw [show stepIndexed companies today mailer t ci ei =
        (some { t with in_progress := false },
          .completed t.sent_emails t.total_emails_to_send) from by
      unfold stepIndexed; rw [if_pos hdone]]
    refine ⟨_, rfl, ?_, ?_, ?_, ?_, ?_, rfl, rfl⟩
    · simp [Outcome.isCompleted, hdone]
    · simp [Outcome.isProcessed]
    · intro _
      exact hci
    · intro j hj
      rw [show ({ t with in_progress := false } : EmailTask).current_index
          = t.current_index from rfl, hci] at hj
      cases hj
      exact le_refl ci
    · intro _
      rfl
  · cases hidx : pyIndex companies ci with
    | none =>
      rw [show stepIndexed companies today mailer t ci ei =
          (some { t with error := some "IndexError", in_progress := false },
            .exceptionFailed) from by
        unfold stepIndexed; rw [if_neg hdone, hidx]]
      refine ⟨_, rfl, ?_, ?_, ?_, ?_, ?_, rfl, rfl⟩
      · simp [Outcome.isCompleted, hdone]
      · simp [Outcome.isProcessed]
      · intro _
        exact hci
      · intro j hj
        rw [show ({ t with error := some "IndexError", in_progress := false } :
            EmailTask).current_index = t.current_index from rfl, hci] at hj
        cases hj
        exact le_refl ci
      · simp [Outcome.isCompleted]
    | some c =>
      rw [stepIndexed_some today mailer t hdone hidx]
      cases hact : companyAction c today with
      | skip r =>
        rw [stepCompany_skip mailer t ci hact]
        refine ⟨_, rfl, ?_, ?_, ?_, ?_, ?_, rfl, rfl⟩
        · simp [Outcome.isCompleted, hdone]
        · intro _
          rfl
        · simp [Outcome.isProcessed]
        · intro j hj
          cases hj
          omega
        · simp [Outcome.isCompleted]
      | raiseErr =>
        rw [stepCompany_raise mailer t ci hact]
        refine ⟨_, rfl, ?_, ?_, ?_, ?_, ?_, rfl, rfl⟩
        · simp [Outcome.isCompleted, hdone]
        · simp [Outcome.isProcessed]
        · intro _
          exact hci
        · intro j hj
          rw [show ({ t with error := some "TypeError", in_progress := false } :
              EmailTask).current_index = t.current_index from rfl, hci] at hj
          cases hj
          exact le_refl ci
        · simp [Outcome.isCompleted]
      | send v subject =>
        cases hm : (mailer ci 0 || mailer ci 1) with
        | true =>
          rw [stepCompany_send_ok mailer t ci hact hm]
          refine ⟨_, rfl, ?_, ?_, ?_, ?_, ?_, rfl, rfl⟩
          · simp [Outcome.isCompleted, hdone]
          · intro _
            rfl
          · simp [Outcome.isProcessed]
          · intro j hj
            cases hj
            omega
          · simp [Outcome.isCompleted]
        | false =>
          rw [stepCompany_send_fail mailer t ci hact
            (by revert hm; cases mailer ci 0 <;> simp)
            (by revert hm; cases mailer ci 1 <;> simp)]
          refine ⟨_, rfl, ?_, ?_, ?_, ?_, ?_, rfl, rfl⟩
          · simp [Outcome.isCompleted, hdone]
          · simp [Outcome.isProcessed]
          · intro _
            exact hci
          · intro j hj
            rw [show ({ t with error := some "MailerError", in_progress := false } :
                EmailTask).current_index = t.current_index from rfl, hci] at hj
            cases hj
            exact le_refl ci
          · simp [Outcome.isCompleted]

/-- Witness for `current_index_progression` on a one-company task whose
company is skipped (response and date condition). -/
theorem current_index_progression_witness :
    ∃ t2, (processNextCompany [⟨"A", [], [.str "a@b"], [.str "Al"], .str "maybe"⟩]
        0 (fun _ _ => true) (some (initTask "u" "p" 0 0 1))).1 = some t2 ∧
      ((processNextCompany [⟨"A", [], [.str "a@b"], [.str "Al"], .str "maybe"⟩]
        0 (fun _ _ => true) (some (initTask "u" "p" 0 0 1))).2.isCompleted = true ↔ (0 : Int) < 0) ∧
      ((processNextCompany [⟨"A", [], [.str "a@b"], [.str "Al"], .str "maybe"⟩]
        0 (fun _ _ => true) (some (initTask "u" "p" 0 0 1))).2.isProcessed = true →
        t2.current_index = some (0 + 1)) ∧
      ((processNextCompany [⟨"A", [], [.str "a@b"], [.str "Al"], .str "maybe"⟩]
        0 (fun _ _ => true) (some (initTask "u" "p" 0 0 1))).2.isProcessed = false →
        t2.current_index = some 0) ∧
      (∀ j, t2.current_index = some j → (0 : Int) ≤ j) ∧
      ((processNextCompany [⟨"A", [], [.str "a@b"], [.str "Al"], .str "maybe"⟩]
        0 (fun _ _ => true) (some (initTask "u" "p" 0 0 1))).2.isCompleted = true →
        t2.in_progress = false) ∧
      (initTask "u" "p" 0 0 1).current_index = some 0 ∧
      (initTask "u" "p" 0 0 1).start_index = some 0 :=
  current_index_progression [⟨"A", [], [.str "a@b"], [.str "Al"], .str "maybe"⟩]
    0 (fun _ _ => true) (some (initTask "u" "p" 0 0 1)) (initTask "u" "p" 0 0 1)
    0 0 "u" "p" 0 0 1 rfl rfl rfl rfl

/-- C9 counterexample: a company with one valid email whose aligned
first-name entry is a NaN is NOT failed by the greeting join — the lone
NaN is truthy, interpolates as text, and the company is sent with the
initial variant; the task stays in progress with no error recorded. -/
theorem nan_singleton_name_sends :
    (processNextCompany [⟨"X", [], [.str "a@b.com"], [.nan], .str ""⟩]
        (toDays 2024 12 1) (fun _ _ => true) (some (initTask "u" "p" 0 0 1))).2
      = .sentOk .initial
          "Patent Monetization Interest for No patent information available etc." 1 ∧
    (loadTask (processNextCompany [⟨"X", [], [.str "a@b.com"], [.nan], .str ""⟩]
        (toDays 2024 12 1) (fun _ _ => true)
        (some (initTask "u" "p" 0 0 1))).1).in_progress = true ∧
    (loadTask (processNextCompany [⟨"X", [], [.str "a@b.com"], [.nan], .str ""⟩]
        (toDays 2024 12 1) (fun _ _ => true)
        (some (initTask "u" "p" 0 0 1))).1).error = none := by
  exact ⟨by decide, by decide, by decide⟩

/-- C9 as amended: when the first-names prefix aligned with the valid
emails has at least two entries and one of them is not a string, the
greeting join raises, the whole call fails with the error response, the
task is marked failed (`in_progress = false`, error recorded) and
`current_index` is not advanced. -/
theorem nonstring_name_raises (companies : List Company) (today : Nat)
    (mailer : Int → Nat → Bool) (file : Option EmailTask) (t : EmailTask)
    (ci ei : Int) (c : Company) (x : Cell)
    (hfile : loadTask file = t) (hp : t.in_progress = true)
    (hci : t.current_index = some ci) (hei : t.end_index = some ei)
    (hrange : ¬ ei < ci) (hidx : pyIndex companies ci = some c)
    (hne : (validEmails c).isEmpty = false)
    (hlen : 2 ≤ (matchedNames c).length)
    (hx : x ∈ matchedNames c) (hxs : asStr x = none) :
    ∃ t2, processNextCompany companies today mailer file = (some t2, .exceptionFailed) ∧
      t2.in_progress = false ∧ t2.error.isSome = true ∧
      t2.current_index = some ci := by
  have hg : greet (matchedNames c) = .error () := greet_raises hlen hx hxs
  have hact : companyAction c today = .raiseErr := by
    simp [companyAction, hne, hg]
  refine ⟨{ t with error := some "TypeError", in_progress := false }, ?_, rfl, rfl, ?_⟩
  · rw [processNextCompany_eq companies today mailer hfile hp,
      stepLoaded_eq companies today mailer hci hei,
      stepIndexed_some today mailer t hrange hidx,
      stepCompany_raise mailer t ci hact]
  · exact hci

/-- Witness for `nonstring_name_raises`: two valid emails aligned against
`["Ann", NaN]`. -/
theorem nonstring_name_raises_witness :
    ∃ t2, processNextCompany
        [⟨"Y", [], [.str "a@b", .str "c@d"], [.str "Ann", .nan], .str ""⟩]
        0 (fun _ _ => true) (some (initTask "u" "p" 0 0 2)) =
        (some t2, .exceptionFailed) ∧
      t2.in_progress = false ∧ t2.error.isSome = true ∧
      t2.current_index = some 0 :=
  nonstring_name_raises
    [⟨"Y", [], [.str "a@b", .str "c@d"], [.str "Ann", .nan], .str ""⟩]
    0 (fun _ _ => true) (some (initTask "u" "p" 0 0 2)) (initTask "u" "p" 0 0 2)
    0 0 ⟨"Y", [], [.str "a@b", .str "c@d"], [.str "Ann", .nan], .str ""⟩ Cell.nan
    rfl rfl rfl rfl (by decide) rfl (by decide) (by decide) (by decide) rfl

/-! ### Restart equivalence and task start -/

theorem stepFull_mem_irrel (companies : List Company) (today : Nat)
    (mailer : Int → Nat → Bool) (mem1 mem2 : EmailTask)
    (file : Option EmailTask) :
    stepFull companies today mailer mem1 file =
      stepFull companies today mailer mem2 file := rfl

/-- C2: driving a persisted task with a fresh process restart (the global
re-initialised from the persisted file) before every step produces exactly
the same outcome sequence and the same final persisted state (hence the
same final sent count) as running all the steps in one uninterrupted
process, for any number of steps — because each call begins by reloading
the task from the file. -/
theorem restart_resumption_equiv (companies : List Company) (today : Nat)
    (mailer : Int → Nat → Bool) (n : Nat) (mem : EmailTask)
    (file : Option EmailTask) :
    runStepsRestart companies today mailer n mem file =
      runSteps companies today mailer n mem file := by
  induction n generalizing mem file with
  | zero => rfl
  | succ k ih =>
    simp only [runSteps, runStepsRestart]
    rw [stepFull_mem_irrel companies today mailer (loadTask file) mem]
    rw [ih]

/-- C6: a start call with a bad range (negative start, start past end,
end at or past the record count) or an empty dataset is rejected: the
persisted task file is unchanged, the outcome is one of the
pre-processing rejections, and the result does not depend on the mailer
(no mail is attempted, no company processed). -/
theorem range_validation_rejects (companies : List Company) (today : Nat)
    (mailer : Int → Nat → Bool) (email password : Option String)
    (s e : Int) (file : Option EmailTask)
    (h : s < 0 ∨ (companies.length : Int) ≤ e ∨ e < s ∨ companies = []) :
    (sendEmails companies today mailer email password s e file).1 = file ∧
    ((sendEmails companies today mailer email password s e file).2).isRejection = true ∧
    (∀ m2 : Int → Nat → Bool,
      sendEmails companies today m2 email password s e file =
        sendEmails companies today mailer email password s e file) := by
  have key : ∃ o, Outcome.isRejection o = true ∧ ∀ m2 : Int → Nat → Bool,
      sendEmails companies today m2 email password s e file = (file, o) := by
    by_cases hp : (loadTask file).in_progress = true
    · exact ⟨.errInProgress, rfl, fun m2 => by simp [sendEmails, hp]⟩
    · have hp2 : (loadTask file).in_progress = false := by
        simpa using hp
      by_cases hcred : (!credOk email || !credOk password) = true
      · exact ⟨.errCreds, rfl, fun m2 => by simp [sendEmails, hp2, hcred]⟩
      · have hcred2 : (!credOk email || !credOk password) = false := by
          simpa using hcred
        by_cases hemp : companies.isEmpty = true
        · exact ⟨.errNoData, rfl, fun m2 => by simp [sendEmails, hp2, hcred2, hemp]⟩
        · have hemp2 : companies.isEmpty = false := by
            simpa using hemp
          have hnil : companies ≠ [] := by
            intro hcon
            rw [hcon] at hemp2
            exact absurd hemp2 (by decide)
          have hrange : (decide (s < 0) ||
              decide ((companies.length : Int) ≤ e) || decide (e < s)) = true := by
            rcases h with h1 | h1 | h1 | h1
            · simp [h1]
            · simp [h1]
            · simp [h1]
            · exact absurd h1 hnil
          exact ⟨.errRange, rfl, fun m2 => by
            simp only [sendEmails, hp2, hcred2, hemp2, Bool.false_eq_true,
              if_false, hrange, if_true]⟩
  obtain ⟨o, ho, key⟩ := key
  refine ⟨by rw [key mailer], by rw [key mailer]; exact ho, fun m2 => by
    rw [key m2, key mailer]⟩

/-- Witness for `range_validation_rejects`: three companies,
`startIndex = 2 > endIndex = 1`. -/
theorem range_validation_rejects_witness :
    (sendEmails [⟨"A", [], [], [], .nan⟩, ⟨"B", [], [], [], .nan⟩,
        ⟨"C", [], [], [], .nan⟩] 0 (fun _ _ => true)
        (some "u") (some "p") 2 1 none).1 = none ∧
    ((sendEmails [⟨"A", [], [], [], .nan⟩, ⟨"B", [], [], [], .nan⟩,
        ⟨"C", [], [], [], .nan⟩] 0 (fun _ _ => true)
        (some "u") (some "p") 2 1 none).2).isRejection = true ∧
    (∀ m2 : Int → Nat → Bool,
      sendEmails [⟨"A", [], [], [], .nan⟩, ⟨"B", [], [], [], .nan⟩,
        ⟨"C", [], [], [], .nan⟩] 0 m2 (some "u") (some "p") 2 1 none =
      sendEmails [⟨"A", [], [], [], .nan⟩, ⟨"B", [], [], [], .nan⟩,
        ⟨"C", [], [], [], .nan⟩] 0 (fun _ _ => true)
        (some "u") (some "p") 2 1 none) :=
  range_validation_rejects [⟨"A", [], [], [], .nan⟩, ⟨"B", [], [], [], .nan⟩,
    ⟨"C", [], [], [], .nan⟩] 0 (fun _ _ => true) (some "u") (some "p") 2 1 none
    (Or.inr (Or.inr (Or.inl (by decide))))

/-! ### The dry-run total (C1) -/

/-- From claim C1 as amended: a company in the range contributes
`len(validEmails)` to `totalToSend` when its response is not
(case-insensitively) `"yes"`, it has at least one valid email, and its
first-names prefix is non-empty; every other company — including one
skipped at send time only by the response/date rule or by an empty
greeting — contributes according to this rule, which ignores the date. -/
def amendedContribution (c : Company) : Int :=
  if isYes c.response = false ∧ validEmails c ≠ [] ∧ matchedNames c ≠ []
  then ((validEmails c).length : Int) else 0

theorem dryCount_eq_amended (c : Company) : dryCount c = amendedContribution c := by
  unfold dryCount amendedContribution
  by_cases h1 : isYes c.response = true <;>
    by_cases h2 : validEmails c = [] <;>
      by_cases h3 : matchedNames c = [] <;>
        simp_all [List.isEmpty_iff]

theorem stepLoaded_badIndex (companies : List Company) (today : Nat)
    (mailer : Int → Nat → Bool) (t : EmailTask)
    (h : t.current_index = none ∨ t.end_index = none) :
    stepLoaded companies today mailer t =
      (some { t with error := some "TypeError", in_progress := false },
        .exceptionFailed) := by
  unfold stepLoaded
  cases hci : t.current_index with
  | none => rfl
  | some ci =>
    cases hei : t.end_index with
    | none => rfl
    | some ei =>
      rcases h with h | h
      · rw [hci] at h
        cases h
      · rw [hei] at h
        cases h

/-- Every step on an in-progress task persists a task with the same
`total_emails_to_send`. -/
theorem processNextCompany_total (companies : List Company) (today : Nat)
    (mailer : Int → Nat → Bool) (t : EmailTask) (hp : t.in_progress = true) :
    ∃ t2 o, processNextCompany companies today mailer (some t) = (some t2, o) ∧
      t2.total_emails_to_send = t.total_emails_to_send := by
  rw [@processNextCompany_eq (some t) t companies today mailer rfl hp]
  cases hci : t.current_index with
  | none =>
    rw [stepLoaded_badIndex companies today mailer t (Or.inl hci)]
    exact ⟨_, _, rfl, rfl⟩
  | some ci =>
    cases hei : t.end_index with
    | none =>
      rw [stepLoaded_badIndex companies today mailer t (Or.inr hei)]
      exact ⟨_, _, rfl, rfl⟩
    | some ei =>
      rw [stepLoaded_eq companies today mailer hci hei]
      by_cases hdone : ei < ci
      · rw [show stepIndexed companies today mailer t ci ei =
            (some { t with in_progress := false },
              .completed t.sent_emails t.total_emails_to_send) from by
          unfold stepIndexed; rw [if_pos hdone]]
        exact ⟨_, _, rfl, rfl⟩
      · cases hidx : pyIndex companies ci with
        | none =>
          rw [show stepIndexed companies today mailer t ci ei =
              (some { t with error := some "IndexError", in_progress := false },
                .exceptionFailed) from by
            unfold stepIndexed; rw [if_neg hdone, hidx]]
          exact ⟨_, _, rfl, rfl⟩
        | some c =>
          rw [stepIndexed_some today mailer t hdone hidx]
          cases hact : companyAction c today with
          | skip r =>
            rw [stepCompany_skip mailer t ci hact]
            exact ⟨_, _, rfl, rfl⟩
          | raiseErr =>
            rw [stepCompany_raise mailer t ci hact]
            exact ⟨_, _, rfl, rfl⟩
          | send v subject =>
            cases hm : (mailer ci 0 || mailer ci 1) with
            | true =>
              rw [stepCompany_send_ok mailer t ci hact hm]
              exact ⟨_, _, rfl, rfl⟩
            | false =>
              rw [stepCompany_send_fail mailer t ci hact
                (by revert hm; cases mailer ci 0 <;> simp)
                (by revert hm; cases mailer ci 1 <;> simp)]
              exact ⟨_, _, rfl, rfl⟩

/-- A valid start call reduces to processing the first company of the
freshly persisted task. -/
theorem sendEmails_starts (companies : List Company) (today : Nat)
    (mailer : Int → Nat → Bool) (email password : Option String)
    (s e : Int) (file : Option EmailTask)
    (hp : (loadTask file).in_progress = false)
    (hem : credOk email = true) (hpw : credOk password = true)
    (hne : companies.isEmpty = false)
    (hs : ¬ s < 0) (he : ¬ (companies.length : Int) ≤ e) (hse : ¬ e < s) :
    sendEmails companies today mailer email password s e file =
      processNextCompany companies today mailer
        (some (initTask (email.getD "") (password.getD "") s e
          (computeTotal companies s e))) := by
  simp [sendEmails, hp, hem, hpw, hne, hs, he, hse]

/-- C1 counterexample: a single-company range where the company has
response `"no"` and today (2024-12-01) is before the follow-up threshold;
processing skips it by the response/date rule and sends nothing, yet the
persisted `totalToSend` is 1, not 0 — the dry run does not consult the
date condition. -/
theorem total_counts_date_skipped_company :
    (sendEmails [⟨"Acme", [], [.str "a@b.com"], [.str "Alice"], .str "no"⟩]
        (toDays 2024 12 1) (fun _ _ => true) (some "u") (some "p") 0 0 none).2
      = .skipped .responseDate ∧
    (loadTask (sendEmails [⟨"Acme", [], [.str "a@b.com"], [.str "Alice"], .str "no"⟩]
        (toDays 2024 12 1) (fun _ _ => true) (some "u") (some "p")
        0 0 none).1).total_emails_to_send = 1 ∧
    (loadTask (sendEmails [⟨"Acme", [], [.str "a@b.com"], [.str "Alice"], .str "no"⟩]
        (toDays 2024 12 1) (fun _ _ => true) (some "u") (some "p")
        0 0 none).1).sent_emails = 0 :=
  ⟨by decide, by decide, by decide⟩

/-- C1 as amended: on a valid start call, the persisted `totalToSend`
equals the sum over the index range of the dry-run contribution, which
charges `len(validEmails)` to every company whose response is not
(case-insensitively) `"yes"` with a non-empty valid-email list and a
non-empty first-names prefix — the response/date rule is not consulted,
so a company with response `"no"` before the threshold, though skipped at
send time with no recipients added, still contributes its count. -/
theorem total_to_send_spec (companies : List Company) (today : Nat)
    (mailer : Int → Nat → Bool) (email password : Option String)
    (s e : Int) (file : Option EmailTask)
    (hp : (loadTask file).in_progress = false)
    (hem : credOk email = true) (hpw : credOk password = true)
    (hne : companies.isEmpty = false)
    (hs : ¬ s < 0) (he : ¬ (companies.length : Int) ≤ e) (hse : ¬ e < s) :
    (∃ t2 o, sendEmails companies today mailer email password s e file = (some t2, o) ∧
      t2.total_emails_to_send =
        (((companies.drop s.toNat).take (e + 1 - s).toNat).map amendedContribution).sum) ∧
    (∀ (c2 : Company) (g2 : Cell), c2.response = Cell.str "no" →
      validEmails c2 ≠ [] → matchedNames c2 ≠ [] →
      greet (matchedNames c2) = .ok g2 → cellTruthy g2 = true →
      today < followUpDate →
      companyAction c2 today = .skip .responseDate ∧
      amendedContribution c2 = ((validEmails c2).length : Int)) := by
  constructor
  · rw [sendEmails_starts companies today mailer email password s e file
      hp hem hpw hne hs he hse]
    obtain ⟨t2, o, heq, htot⟩ := processNextCompany_total companies today mailer
      (initTask (email.getD "") (password.getD "") s e (computeTotal companies s e)) rfl
    refine ⟨t2, o, heq, ?_⟩
    rw [htot]
    show computeTotal companies s e = _
    unfold computeTotal
    rw [show dryCount = amendedContribution from funext dryCount_eq_amended]
  · intro c2 g2 hr hve hnames hg ht htoday
    have hvef : (validEmails c2).isEmpty = false := by
      cases hve2 : (validEmails c2).isEmpty with
      | false => rfl
      | true => exact absurd (List.isEmpty_iff.mp hve2) hve
    have hdec : decide (followUpDate ≤ today) = false := by
      simp [Nat.not_le.mpr htoday]
    constructor
    · simp [companyAction, hvef, hg, ht, hr, isYes, isNo, isNaCell, isEmptyStr,
        pyLower, hdec]
    · unfold amendedContribution
      rw [if_pos ⟨by rw [hr]; decide, hve, hnames⟩]

/-- Witness for `total_to_send_spec` on a concrete valid start call. -/
theorem total_to_send_spec_witness :
    (∃ t2 o, sendEmails [⟨"Acme", [], [.str "a@b.com"], [.str "Alice"], .str "no"⟩]
        (toDays 2024 12 1) (fun _ _ => true) (some "u") (some "p") 0 0 none = (some t2, o) ∧
      t2.total_emails_to_send =
        (((([⟨"Acme", [], [.str "a@b.com"], [.str "Alice"], .str "no"⟩] :
            List Company).drop (0 : Int).toNat).take
              ((0 : Int) + 1 - 0).toNat).map amendedContribution).sum) ∧
    (∀ (c2 : Company) (g2 : Cell), c2.response = Cell.str "no" →
      validEmails c2 ≠ [] → matchedNames c2 ≠ [] →
      greet (matchedNames c2) = .ok g2 → cellTruthy g2 = true →
      toDays 2024 12 1 < followUpDate →
      companyAction c2 (toDays 2024 12 1) = .skip .responseDate ∧
      amendedContribution c2 = ((validEmails c2).length : Int)) :=
  total_to_send_spec [⟨"Acme", [], [.str "a@b.com"], [.str "Alice"], .str "no"⟩]
    (toDays 2024 12 1) (fun _ _ => true) (some "u") (some "p") 0 0 none
    rfl rfl rfl rfl (by decide) (by decide) (by decide)

end EmailBackend
